import Mathlib

/-!
Shallow embedding of the pydantic-agent repository (src/src/models.py,
src/src/agent.py, src/src/tools.py) and proofs of the specification claims.

Modelling conventions:
* `datetime` instants are modelled as `Nat` timestamps supplied explicitly
  where the source calls `datetime.now()`.
* `uuid.uuid4()` fresh identifiers are supplied explicitly as `String`s.
* Python dictionaries are modelled as association lists `List (String × String)`;
  the Python membership test `k in d` is key membership.
* Pydantic construction that can raise a ValidationError / ValueError is
  modelled as `Except String _`; a Python method that mutates `self` and may
  raise is modelled as returning the outcome together with the state of the
  object after the call (unchanged when the exception is raised before any
  mutation, exactly as in the source).
* `os.getenv` results and optional arguments are `Option String`; Python
  truthiness of a string option (`None` and `""` are falsy) is `pyTruthy`.
-/

/-- models.py `Message`: role, content, timestamp (datetime.now default). -/
structure Message where
  role : String
  content : String
  timestamp : Nat
deriving Repr, DecidableEq

/-- models.py `Memory`: id, content, source, importance (int, field default 1,
ge=1, le=10), created_at, last_accessed (optional, default None). -/
structure Memory where
  id : String
  content : String
  source : String
  importance : Int
  created_at : Nat
  last_accessed : Option Nat
deriving Repr, DecidableEq

/-- The `importance` field's own default in models.py: `Field(default=1, ...)`. -/
def Memory.importance_field_default : Int := 1

/-- Pydantic construction of a `Memory` with an explicit importance value.
The field carries `ge=1, le=10`, and `validate_importance` (a mode=after
model validator) raises `ValueError("Importance must be between 1 and 10")`
when `self.importance < 1 or self.importance > 10`.  Both checks impose the
same condition, so construction fails exactly when importance is outside
[1,10]. -/
def Memory.construct (id content source : String) (importance : Int)
    (created_at : Nat) : Except String Memory :=
  if importance < 1 || importance > 10 then
    Except.error "Importance must be between 1 and 10"
  else
    Except.ok { id := id, content := content, source := source,
                importance := importance, created_at := created_at,
                last_accessed := none }

/-- models.py `Tool`: declarative descriptor.  `parameters` is a dict of
parameter name to description, `required_parameters` a list of names. -/
structure Tool where
  name : String
  description : String
  parameters : List (String × String)
  required_parameters : List String
deriving Repr, DecidableEq

/-- models.py `Tool.validate_parameters`:
`return all(param in params for param in self.required_parameters)` where
`param in params` is dictionary key membership. -/
def Tool.validate_parameters (t : Tool) (params : List (String × String)) : Bool :=
  t.required_parameters.all (fun param => params.any (fun kv => kv.1 == param))

/-- models.py `AgentAction`: action_type, optional content / tool_name /
tool_parameters, timestamp. -/
structure AgentAction where
  action_type : String
  content : Option String
  tool_name : Option String
  tool_parameters : Option (List (String × String))
  timestamp : Nat
deriving Repr, DecidableEq

/-- models.py `AgentThought`: content and timestamp. -/
structure AgentThought where
  content : String
  timestamp : Nat
deriving Repr, DecidableEq

/-- models.py `Agent`: the aggregate root with the tool catalogue and the
four logs. -/
structure Agent where
  id : String
  name : String
  description : String
  available_tools : List Tool
  messages : List Message
  memories : List Memory
  thoughts : List AgentThought
  actions : List AgentAction
deriving Repr, DecidableEq

/-- models.py `Agent.add_message`:
`self.messages.append(Message(role=role, content=content))`.
`Message.role` is a plain `str` field with no validator, so any role string
is accepted; the timestamp comes from `datetime.now()` (here `now`). -/
def Agent.add_message (a : Agent) (role content : String) (now : Nat) : Agent :=
  { a with messages := a.messages ++ [{ role := role, content := content, timestamp := now }] }

/-- models.py `Agent.add_thought`: annotated `-> None`; it appends
`AgentThought(content=content)` to `self.thoughts` and returns `None`
(there is no return statement).  The second component is the Python return
value, modelled as `Option AgentThought` so that returning the created
entry would be `some _`; the source returns `none`. -/
def Agent.add_thought (a : Agent) (content : String) (now : Nat) :
    Agent × Option AgentThought :=
  ({ a with thoughts := a.thoughts ++ [{ content := content, timestamp := now }] }, none)

/-- models.py `Agent.add_memory`: appends a pre-constructed `Memory`. -/
def Agent.add_memory (a : Agent) (m : Memory) : Agent :=
  { a with memories := a.memories ++ [m] }

/-- models.py `Agent.record_action`: appends a pre-constructed `AgentAction`. -/
def Agent.record_action (a : Agent) (act : AgentAction) : Agent :=
  { a with actions := a.actions ++ [act] }

/-- Python truthiness for an optional string: `None` and `""` are falsy. -/
def pyTruthy : Option String → Bool
  | none => false
  | some s => !(s == "")

/-- Python `a or b` on optional strings: the left value if truthy, else the
right value. -/
def pyOr (a b : Option String) : Option String :=
  if pyTruthy a then a else b

/-- agent.py `PydanticAgent`: wraps the `Agent` model together with the api
key.  The `self.llm = OpenAI(...)` field is an external collaborator with no
observable state in this core and is omitted. -/
structure PydanticAgent where
  api_key : Option String
  agent_model : Agent
deriving Repr, DecidableEq

/-- agent.py `PydanticAgent.__init__`:
`self.api_key = openai_api_key or os.getenv("OPENAI_API_KEY")`; raises
ValueError if the result is falsy; then builds the `Agent` model with a
fresh uuid, the given name and description, empty tool list, `messages`
seeded with the single system message, and empty memories, thoughts and
actions.  No check is performed on `system_prompt`.
`env_key` is the value of `os.getenv("OPENAI_API_KEY")`, `fresh_id` the
uuid, `now` the timestamp of the seeded message. -/
def PydanticAgent.init (name description system_prompt : String)
    (openai_api_key env_key : Option String) (fresh_id : String) (now : Nat) :
    Except String PydanticAgent :=
  let api_key := pyOr openai_api_key env_key
  if !(pyTruthy api_key) then
    Except.error "OpenAI API key must be provided or set as OPENAI_API_KEY environment variable"
  else
    Except.ok
      { api_key := api_key,
        agent_model :=
          { id := fresh_id, name := name, description := description,
            available_tools := [],
            messages := [{ role := "system", content := system_prompt, timestamp := now }],
            memories := [], thoughts := [], actions := [] } }

/-- agent.py `PydanticAgent.add_tool`: appends to the agent model's
`available_tools` (the logging call has no model effect). -/
def PydanticAgent.add_tool (pa : PydanticAgent) (t : Tool) : PydanticAgent :=
  { pa with agent_model :=
      { pa.agent_model with available_tools := pa.agent_model.available_tools ++ [t] } }

/-- agent.py `PydanticAgent.add_memory`: constructs
`Memory(id=str(uuid.uuid4()), content=content, source=source, importance=importance)`
and, when construction succeeds, calls `self.agent_model.add_memory(memory)`.
The result pairs the call outcome with the state of the object after the
call: when `Memory(...)` raises, the exception propagates before any append,
so the state is unchanged. -/
def PydanticAgent.add_memory (pa : PydanticAgent) (content source : String)
    (importance : Int) (fresh_id : String) (now : Nat) :
    Except String Unit × PydanticAgent :=
  match Memory.construct fresh_id content source importance now with
  | Except.error e => (Except.error e, pa)
  | Except.ok m =>
      (Except.ok (), { pa with agent_model := pa.agent_model.add_memory m })

/-- The default value of the `importance` argument of
`PydanticAgent.add_memory` in agent.py: `importance: int = 5`. -/
def PydanticAgent.add_memory_importance_default : Int := 5

/-- A call of agent.py `PydanticAgent.add_memory` that omits the
`importance` argument: Python fills in the declared default `5`. -/
def PydanticAgent.add_memory_noimportance (pa : PydanticAgent)
    (content source fresh_id : String) (now : Nat) :
    Except String Unit × PydanticAgent :=
  pa.add_memory content source PydanticAgent.add_memory_importance_default fresh_id now

/-- tools.py search result dictionary: title, url, snippet. -/
structure SearchResult where
  title : String
  url : String
  snippet : String
deriving Repr, DecidableEq

/-- tools.py `web_search`: builds
`[{...} for i in range(min(num_results, 10))]`.  `num_results` is a Python
int (possibly negative); `range(k)` for `k ≤ 0` is empty, modelled by
`Int.toNat`. -/
def web_search (query : String) (num_results : Int) : List SearchResult :=
  (List.range (min num_results 10).toNat).map (fun i =>
    { title := "Result " ++ toString (i + 1) ++ " for \x27" ++ query ++ "\x27",
      url := "https://example.com/result" ++ toString (i + 1),
      snippet := "This is a snippet of information related to " ++ query ++ "..." })

/-- Iterated `Agent.add_message` over a list of (role, content, timestamp)
calls, in order. -/
def Agent.add_messages (a : Agent) : List (String × String × Nat) → Agent
  | [] => a
  | (r, c, t) :: rest => (a.add_message r c t).add_messages rest

/-- Whether a call modelled with `Except` completed without raising. -/
def exceptOk {ε α : Type _} : Except ε α → Bool
  | Except.ok _ => true
  | Except.error _ => false

/-! Theorems for the specification claims. -/

/-- C1: `recordMemory` (PydanticAgent.add_memory, constructing a Memory)
succeeds if and only if 1 ≤ importance ≤ 10; any value outside that range
fails with a validation error rather than clamping, and the boundary values
1 and 10 succeed. -/
theorem C1_add_memory_succeeds_iff (pa : PydanticAgent)
    (content source fid : String) (i : Int) (now : Nat) :
    exceptOk (pa.add_memory content source i fid now).1 = true ↔ 1 ≤ i ∧ i ≤ 10 := by
  unfold PydanticAgent.add_memory Memory.construct
  by_cases h : i < 1 || i > 10
  · simp only [Bool.or_eq_true, decide_eq_true_eq] at h
    rw [if_pos (by simpa using h)]
    simp [exceptOk]
    omega
  · simp only [Bool.or_eq_true, decide_eq_true_eq, not_or, not_lt] at h
    rw [if_neg (by simpa using h)]
    simp [exceptOk]
    omega

/-- C5: `Tool.validate_parameters params` returns true iff every name in
`required_parameters` is a key of `params`; in particular it is true when
`required_parameters` is empty, and extra keys in `params` are ignored. -/
theorem C5_validate_parameters_iff (t : Tool) (params : List (String × String)) :
    t.validate_parameters params = true ↔
      ∀ p ∈ t.required_parameters, ∃ kv ∈ params, kv.1 = p := by
  simp [Tool.validate_parameters, List.all_eq_true, List.any_eq_true]

/-- C9: `web_search` returns exactly min(num_results, 10) results when
num_results ≥ 0, the empty list when num_results < 0, and never more than
10 results. -/
theorem C9_web_search_result_count (query : String) (n : Int) :
    (0 ≤ n → ((web_search query n).length : Int) = min n 10) ∧
    (n < 0 → web_search query n = []) ∧
    (web_search query n).length ≤ 10 := by
  refine ⟨?_, ?_, ?_⟩
  · intro hn
    simp [web_search]
    omega
  · intro hn
    have hmin : (min n 10).toNat = 0 := by omega
    simp [web_search, hmin]
  · simp [web_search]

/-- C9 witness: concrete instances of the three conjuncts. -/
theorem C9_web_search_result_count_witness :
    (((web_search "q" 3).length : Int) = min 3 10) ∧
    (web_search "q" (-2) = []) ∧
    ((web_search "q" 99).length ≤ 10) :=
  ⟨(C9_web_search_result_count "q" 3).1 (by decide),
   (C9_web_search_result_count "q" (-2)).2.1 (by decide),
   (C9_web_search_result_count "q" 99).2.2⟩

/-- C10: calling `PydanticAgent.add_memory` without an importance argument
appends a Memory whose importance is exactly the operation default 5, not
the Memory model's own field default 1. -/
theorem C10_add_memory_default_importance (pa : PydanticAgent)
    (content source fid : String) (now : Nat) :
    (pa.add_memory_noimportance content source fid now).2.agent_model.memories =
      pa.agent_model.memories ++
        [{ id := fid, content := content, source := source, importance := 5,
           created_at := now, last_accessed := none }] ∧
    PydanticAgent.add_memory_importance_default = 5 ∧
    Memory.importance_field_default = 1 ∧
    PydanticAgent.add_memory_importance_default ≠ Memory.importance_field_default := by
  refine ⟨?_, rfl, rfl, by decide⟩
  simp [PydanticAgent.add_memory_noimportance, PydanticAgent.add_memory,
        PydanticAgent.add_memory_importance_default, Memory.construct,
        Agent.add_memory]

/-- C2 counterexample: with an api key supplied, creation with the EMPTY
system prompt succeeds (the constructor performs no emptiness check on
`system_prompt`), contradicting the claim that it fails. -/
theorem C2_counterexample_empty_prompt_succeeds :
    PydanticAgent.init "A" "B" "" (some "k") none "id0" 0 =
      Except.ok
        { api_key := some "k",
          agent_model :=
            { id := "id0", name := "A", description := "B",
              available_tools := [],
              messages := [{ role := "system", content := "", timestamp := 0 }],
              memories := [], thoughts := [], actions := [] } } := rfl

/-- C2 amended: `PydanticAgent.__init__` performs no check on the system
prompt at all; it succeeds exactly when the resolved api key
(`openai_api_key or os.getenv("OPENAI_API_KEY")`) is truthy, for every
system prompt, the empty string included. -/
theorem C2_amended_init_ignores_prompt (name desc sp fid : String) (now : Nat)
    (key env : Option String) :
    exceptOk (PydanticAgent.init name desc sp key env fid now) =
      pyTruthy (pyOr key env) := by
  unfold PydanticAgent.init
  by_cases h : pyTruthy (pyOr key env)
  · rw [if_neg (by simp [h])]
    simp [exceptOk, h]
  · rw [if_pos (by simp_all)]
    simp_all [exceptOk]

/-- C3: immediately after a successful `PydanticAgent.__init__`, the agent
model's messages list is exactly one system message carrying the system
prompt, and the tools, memories, thoughts and actions lists are empty. -/
theorem C3_initial_state (name desc sp fid : String) (now : Nat)
    (key env : Option String) (pa : PydanticAgent)
    (h : PydanticAgent.init name desc sp key env fid now = Except.ok pa) :
    pa.agent_model.messages = [{ role := "system", content := sp, timestamp := now }] ∧
    pa.agent_model.available_tools = [] ∧
    pa.agent_model.memories = [] ∧
    pa.agent_model.thoughts = [] ∧
    pa.agent_model.actions = [] := by
  unfold PydanticAgent.init at h
  simp only [] at h
  split at h
  · exact absurd h (by simp)
  · injection h with h
    subst h
    exact ⟨rfl, rfl, rfl, rfl, rfl⟩

/-- C3 witness: a concrete successful creation. -/
theorem C3_initial_state_witness :
    ({ api_key := some "k",
       agent_model :=
         { id := "id0", name := "A", description := "B",
           available_tools := [],
           messages := [{ role := "system", content := "sys", timestamp := 0 }],
           memories := [], thoughts := [], actions := [] } } :
        PydanticAgent).agent_model.messages =
      [{ role := "system", content := "sys", timestamp := 0 }] ∧
    ({ api_key := some "k",
       agent_model :=
         { id := "id0", name := "A", description := "B",
           available_tools := [],
           messages := [{ role := "system", content := "sys", timestamp := 0 }],
           memories := [], thoughts := [], actions := [] } } :
        PydanticAgent).agent_model.available_tools = [] ∧
    ({ api_key := some "k",
       agent_model :=
         { id := "id0", name := "A", description := "B",
           available_tools := [],
           messages := [{ role := "system", content := "sys", timestamp := 0 }],
           memories := [], thoughts := [], actions := [] } } :
        PydanticAgent).agent_model.memories = [] ∧
    ({ api_key := some "k",
       agent_model :=
         { id := "id0", name := "A", description := "B",
           available_tools := [],
           messages := [{ role := "system", content := "sys", timestamp := 0 }],
           memories := [], thoughts := [], actions := [] } } :
        PydanticAgent).agent_model.thoughts = [] ∧
    ({ api_key := some "k",
       agent_model :=
         { id := "id0", name := "A", description := "B",
           available_tools := [],
           messages := [{ role := "system", content := "sys", timestamp := 0 }],
           memories := [], thoughts := [], actions := [] } } :
        PydanticAgent).agent_model.actions = [] :=
  C3_initial_state "A" "B" "sys" "id0" 0 (some "k") none _ rfl

/-- A concrete freshly created agent model used as the input of the C4
counterexample. -/
def agentC4 : Agent :=
  { id := "id0", name := "A", description := "B", available_tools := [],
    messages := [{ role := "system", content := "sys", timestamp := 0 }],
    memories := [], thoughts := [], actions := [] }

/-- C4 counterexample: the role string "banana" is outside
{system, user, assistant}, yet `Agent.add_message` does not fail: it
appends a message with that role (`Message.role` has no validation). -/
theorem C4_counterexample_any_role_appends :
    ("banana" ∉ (["system", "user", "assistant"] : List String)) ∧
    (agentC4.add_message "banana" "hi" 1).messages =
      agentC4.messages ++ [{ role := "banana", content := "hi", timestamp := 1 }] :=
  ⟨by decide, rfl⟩

/-- C4 amended: `Agent.add_message` accepts every role string — it always
appends a message with the given role and content and never fails; no
restriction to {system, user, assistant} is enforced. -/
theorem C4_amended_no_role_validation (a : Agent) (role content : String) (now : Nat) :
    (a.add_message role content now).messages =
      a.messages ++ [{ role := role, content := content, timestamp := now }] := rfl

/-- C6: when `PydanticAgent.add_memory` is called with an importance outside
[1,10], the validation error is raised at that call and the whole agent
object is left exactly as it was: nothing is appended to any log. -/
theorem C6_invalid_importance_leaves_agent_unchanged (pa : PydanticAgent)
    (content source fid : String) (i : Int) (now : Nat)
    (h : i < 1 ∨ 10 < i) :
    (pa.add_memory content source i fid now).2 = pa ∧
    (pa.add_memory content source i fid now).1 =
      Except.error "Importance must be between 1 and 10" := by
  unfold PydanticAgent.add_memory Memory.construct
  rw [if_pos (by simp only [Bool.or_eq_true, decide_eq_true_eq]; omega)]
  exact ⟨rfl, rfl⟩

/-- A concrete agent wrapper used as the input of the C6 witness. -/
def paC6 : PydanticAgent :=
  { api_key := some "k",
    agent_model :=
      { id := "id6", name := "A", description := "B", available_tools := [],
        messages := [{ role := "system", content := "sys", timestamp := 0 }],
        memories := [], thoughts := [], actions := [] } }

/-- C6 witness: importance 11 leaves the concrete agent unchanged. -/
theorem C6_invalid_importance_leaves_agent_unchanged_witness :
    (paC6.add_memory "c" "s" 11 "m0" 1).2 = paC6 ∧
    (paC6.add_memory "c" "s" 11 "m0" 1).1 =
      Except.error "Importance must be between 1 and 10" :=
  C6_invalid_importance_leaves_agent_unchanged paC6 "c" "s" "m0" 11 1 (by decide)

/-- The message log after a sequence of `add_message` calls is the original
log followed by one message per call, in order: appends never mutate,
remove or reorder existing entries. -/
theorem add_messages_eq (a : Agent) (calls : List (String × String × Nat)) :
    (a.add_messages calls).messages =
      a.messages ++ calls.map (fun rct =>
        { role := rct.1, content := rct.2.1, timestamp := rct.2.2 }) := by
  induction calls generalizing a with
  | nil => simp [Agent.add_messages]
  | cons hd tl ih =>
    obtain ⟨r, c, t⟩ := hd
    simp [Agent.add_messages, Agent.add_message, ih]

/-- C7: `add_message` is strictly additive.  For an agent created with a
system prompt, after the calls in `calls` the message log is exactly the
system seed followed by one message per call in order (so every previously
present message, the seed at index 0 included, is unchanged in position and
content — the statement holds for every prefix of `calls`), and its length
is 1 + N. -/
theorem C7_append_message_additive (name desc sp fid : String) (now : Nat)
    (key env : Option String) (pa : PydanticAgent)
    (h : PydanticAgent.init name desc sp key env fid now = Except.ok pa)
    (calls : List (String × String × Nat)) :
    (pa.agent_model.add_messages calls).messages =
      { role := "system", content := sp, timestamp := now } ::
        calls.map (fun rct =>
          { role := rct.1, content := rct.2.1, timestamp := rct.2.2 }) ∧
    (pa.agent_model.add_messages calls).messages.length = 1 + calls.length := by
  have hmsg : pa.agent_model.messages =
      [{ role := "system", content := sp, timestamp := now }] := by
    unfold PydanticAgent.init at h
    simp only [] at h
    split at h
    · exact absurd h (by simp)
    · injection h with h
      subst h
      rfl
  refine ⟨?_, ?_⟩
  · rw [add_messages_eq, hmsg]
    rfl
  · rw [add_messages_eq, hmsg]
    simp [Nat.add_comm]

/-- A concrete freshly created agent wrapper used as the input of the C7
witness. -/
def paC7 : PydanticAgent :=
  { api_key := some "k",
    agent_model :=
      { id := "id7", name := "A", description := "B", available_tools := [],
        messages := [{ role := "system", content := "sys", timestamp := 0 }],
        memories := [], thoughts := [], actions := [] } }

/-- C7 witness: one appended user message on a concrete created agent. -/
theorem C7_append_message_additive_witness :
    (paC7.agent_model.add_messages [("user", "hi", 1)]).messages =
      { role := "system", content := "sys", timestamp := 0 } ::
        [("user", "hi", 1)].map (fun rct =>
          { role := rct.1, content := rct.2.1, timestamp := rct.2.2 }) ∧
    (paC7.agent_model.add_messages [("user", "hi", 1)]).messages.length =
      1 + [("user", "hi", 1)].length :=
  C7_append_message_additive "A" "B" "sys" "id7" 0 (some "k") none paC7 rfl
    [("user", "hi", 1)]

/-- A concrete agent used as the input of the C8 counterexample. -/
def agentC8 : Agent :=
  { id := "id8", name := "A", description := "B", available_tools := [],
    messages := [{ role := "system", content := "sys", timestamp := 0 }],
    memories := [], thoughts := [], actions := [] }

/-- C8 counterexample: `Agent.add_thought` appends the thought but its
return value is `None` — it does NOT return the created entry, contrary to
the claim. -/
theorem C8_counterexample_returns_none :
    (agentC8.add_thought "x" 5).1.thoughts =
      agentC8.thoughts ++ [{ content := "x", timestamp := 5 }] ∧
    (agentC8.add_thought "x" 5).2 = none ∧
    ¬ ((agentC8.add_thought "x" 5).2 = some { content := "x", timestamp := 5 }) :=
  ⟨rfl, rfl, by decide⟩

/-- C8 amended: `Agent.add_thought` appends a new AgentThought with the
given content to the thoughts log, and returns None (its return type is
annotated `-> None`), not the created entry. -/
theorem C8_amended_append_return_none (a : Agent) (content : String) (now : Nat) :
    (a.add_thought content now).1.thoughts =
      a.thoughts ++ [{ content := content, timestamp := now }] ∧
    (a.add_thought content now).2 = none :=
  ⟨rfl, rfl⟩
